import Mathlib

set_option maxRecDepth 8000

/-!
Shallow embedding of the ff-media MIDI wire-protocol engine.

Bytes are modelled as `Nat`, frames (`Uint8Array` / `number[]`) as `List Nat`.
JavaScript out-of-range indexing (which yields `undefined`) is modelled with
`List.get?` (`Option Nat`) where the source compares possibly-missing bytes,
and with `List.getD _ 0` where the claims only concern frames long enough for
the accessed byte.

Embedded source files:
  * `src/midi/MIDIMessage.ts`      — codec: classification, builders,
    construction policy, field accessors, `validateSysEx`;
  * `src/midi/MIDIChannelState.ts` — per-channel state tracker (`update`,
    `reset`, `holdOn`);
  * `MIDIExchange` (exchange protocol) — `start`, `startExchangeEvent`,
    `onMidiMessage` with its descriptor-defaulting expressions.
-/

/-- Source `MIDIMessageType`: `Channel`, `System`, `SysEx`. -/
inductive MIDIMessageType where
  | Channel
  | System
  | SysEx
deriving DecidableEq, Repr

namespace MIDIMessage

/-- Source `MIDIMessage.type(firstByte)`:
`0xf0` is SysEx, any other byte with a `0xf0` high nibble is System,
everything else is a channel message. -/
def type (firstByte : Nat) : MIDIMessageType :=
  if firstByte = 0xf0 then .SysEx
  else if firstByte &&& 0xf0 = 0xf0 then .System
  else .Channel

/-- Source `MIDIMessage.status(firstByte)`: system bytes verbatim,
channel bytes masked with `0xf0`. -/
def status (firstByte : Nat) : Nat :=
  if firstByte &&& 0xf0 = 0xf0 then firstByte else firstByte &&& 0xf0

/-- Source `MIDIMessage.noteOn(channel, note, velocity)`. -/
def noteOn (channel note velocity : Nat) : List Nat :=
  [0x90 ||| channel, note, velocity]

/-- Source `MIDIMessage.noteOff(channel, note, velocity = 0)`. -/
def noteOff (channel note velocity : Nat) : List Nat :=
  [0x80 ||| channel, note, velocity]

/-- Source `MIDIMessage.controlChange(channel, controller, value)`. -/
def controlChange (channel controller value : Nat) : List Nat :=
  [0xb0 ||| channel, controller, value]

/-- Source `MIDIMessage.programChange(channel, program)`. -/
def programChange (channel program : Nat) : List Nat :=
  [0xc0 ||| channel, program]

/-- Source `MIDIMessage.universalNRTSysEx(deviceId, sid1, sid2?, data?)`:
`[0xf0, 0x7e, deviceId, sid1]`, then the optional `sid2`, then the
optional payload. -/
def universalNRTSysEx (deviceId sid1 : Nat) (sid2 : Option Nat)
    (data : Option (List Nat)) : List Nat :=
  [0xf0, 0x7e, deviceId, sid1] ++ (sid2.elim [] fun s => [s]) ++ data.getD []

/-- Source `MIDIMessage.universalRTSysEx(deviceId, sid1, sid2, data?)`.
The source pushes `0x7e` as the second byte (same as the non-realtime
builder), not `0x7f`. -/
def universalRTSysEx (deviceId sid1 sid2 : Nat)
    (data : Option (List Nat)) : List Nat :=
  [0xf0, 0x7e, deviceId, sid1, sid2] ++ data.getD []

/-- Source `MIDIMessage` constructor body: with the process-wide
`convertZeroVelToNoteOff` flag set, a 3-byte frame whose status nibble is
Note-On (`0x90`) and whose velocity byte is `0` has its first byte rewritten
to `0x80 | channel`; every other frame is stored unchanged. -/
def mkMessage (convertZeroVelToNoteOff : Bool) (data : List Nat) : List Nat :=
  if convertZeroVelToNoteOff = true ∧ data.length = 3 ∧
      data.getD 0 0 &&& 0xf0 = 0x90 ∧ data.getD 2 0 = 0 then
    (0x80 ||| (data.getD 0 0 &&& 0x0f)) :: data.tail
  else data

/-- Source getter `channel`: `data[0] & 0x0f`. -/
def channel (data : List Nat) : Nat := data.getD 0 0 &&& 0x0f

/-- Source getter `note`: `data[1]`. -/
def note (data : List Nat) : Nat := data.getD 1 0

/-- Source getter `velocity`: `data[2]`. -/
def velocity (data : List Nat) : Nat := data.getD 2 0

/-- Source getter `controller`: `data[1]`. -/
def controller (data : List Nat) : Nat := data.getD 1 0

/-- Source getter `value`: `data[2]`. -/
def value (data : List Nat) : Nat := data.getD 2 0

/-- Source getter `pitchBend`: `data[2] * 0x80 + data[1] - 0x2000`,
computed in `Int` because the result is zero-centered. -/
def pitchBend (data : List Nat) : Int :=
  (data.getD 2 0 : Int) * 0x80 + (data.getD 1 0 : Int) - 0x2000

/-- The header loop of source `MIDIMessage.validateSysEx`: for each header
byte `h` at loop index `j`, fail unless `h` is the `0xff` wildcard or equals
frame byte `i + j + 1`; a missing frame byte (JS `undefined`) equals no
header byte, modelled with `Option`. -/
def headerMatches (data : List Nat) (i : Nat) : List Nat → Nat → Bool
  | [], _ => true
  | h :: rest, j =>
    if h ≠ 0xff ∧ data.get? (i + j + 1) ≠ some h then false
    else headerMatches data i rest (j + 1)

/-- The manufacturer-id comparison of source `validateSysEx` and the index
`i` it leaves behind: `none` models the early `return false`, `some i` the
loop variable after the id bytes (2 after a 1-byte id, 4 after the extended
3-byte form, compared against frame bytes 1..3). -/
def idIndex (data : List Nat) (id : Nat ⊕ List Nat) : Option Nat :=
  match id with
  | .inl n => if data.get? 1 ≠ some n then none else some 2
  | .inr l =>
    if data.get? 1 ≠ l.get? 0 ∨ data.get? 2 ≠ l.get? 1 ∨
        data.get? 3 ≠ l.get? 2 then none
    else some 4

/-- The header check of source `validateSysEx`: run the header loop when a
header was supplied, else succeed. -/
def headerPart (data : List Nat) (i : Nat) (header : Option (List Nat)) : Bool :=
  match header with
  | some hs => headerMatches data i hs 0
  | none => true

/-- Source `MIDIMessage.validateSysEx(data, id, deviceId?, header?)`.
`id` is a single manufacturer byte (`Sum.inl`) or the extended array form
(`Sum.inr`); `deviceId = 0x7f` matches any device; header bytes `0xff`
match any frame byte. -/
def validateSysEx (data : List Nat) (id : Nat ⊕ List Nat)
    (deviceId : Option Nat) (header : Option (List Nat)) : Bool :=
  if data.get? 0 ≠ some 0xf0 then false
  else
    match idIndex data id with
    | none => false
    | some i =>
      match deviceId with
      | some d =>
        if d ≠ 0x7f ∧ data.get? i ≠ some d then false
        else headerPart data i header
      | none => headerPart data i header

end MIDIMessage

/-- Length in bytes of the manufacturer-id comparison: byte offset of the
device id inside a sysex frame (2 after a 1-byte id, 4 after the 3-byte form). -/
def idOffset (id : Nat ⊕ List Nat) : Nat :=
  match id with
  | .inl _ => 2
  | .inr _ => 4

/-- The wildcard sysex match as the specification words it
(restatement of spec §4.1 "Wildcard sysex match", for comparison with the
source-derived `MIDIMessage.validateSysEx`): byte 0 is the sysex status; the
manufacturer id matches positionally (1- or 3-byte form); a supplied device id
other than the `0x7f` wildcard equals the frame's device-id byte; every
supplied header byte equals the corresponding frame byte unless it is the
`0xff` wildcard. -/
def SysExMatchSpec (data : List Nat) (id : Nat ⊕ List Nat)
    (deviceId : Option Nat) (header : Option (List Nat)) : Prop :=
  data.get? 0 = some 0xf0 ∧
  (match id with
   | .inl n => data.get? 1 = some n
   | .inr l => data.get? 1 = l.get? 0 ∧ data.get? 2 = l.get? 1 ∧
       data.get? 3 = l.get? 2) ∧
  (∀ d, deviceId = some d → d ≠ 0x7f → data.get? (idOffset id) = some d) ∧
  (∀ hs, header = some hs → ∀ j, j < hs.length → hs.getD j 0 ≠ 0xff →
    data.get? (idOffset id + j + 1) = some (hs.getD j 0))

/-!
## Channel state engine — `src/midi/MIDIChannelState.ts`

The state's mutable fields. The readonly channel index and the
observer/device callbacks do not affect the tracked state and are omitted.
`activeNotes` and the two value tables are total maps indexed by note /
controller number.
-/

/-- Source `MIDIChannelState` fields. -/
structure MIDIChannelState where
  channelPressure : Nat
  pitchBend : Int
  activeNotes : Nat → List (List Nat)
  heldNotes : List (List Nat)
  controller : Nat → Nat
  keyPressure : Nat → Nat

namespace MIDIChannelState

/-- The freshly constructed state: all tables zero, all queues empty
(source constructor loop). -/
def init : MIDIChannelState :=
  { channelPressure := 0
    pitchBend := 0
    activeNotes := fun _ => []
    heldNotes := []
    controller := fun _ => 0
    keyPressure := fun _ => 0 }

/-- Source getter `holdOn`: `controller[64] >= 64`. -/
def holdOn (s : MIDIChannelState) : Prop := 64 ≤ s.controller 64

instance (s : MIDIChannelState) : Decidable s.holdOn :=
  inferInstanceAs (Decidable (64 ≤ s.controller 64))

/-- One shift of the sustain-drain loop body in source `update`
(ControlChange branch): pop the oldest outstanding occurrence of the held
Note-Off's note. -/
def drainOne (s : MIDIChannelState) (m : List Nat) : MIDIChannelState :=
  { s with activeNotes := fun n =>
      if n = MIDIMessage.note m then (s.activeNotes n).tail else s.activeNotes n }

/-- Source `MIDIChannelState.update(message)`: dispatch on the message
status; `b1`/`b2` are the frame's data bytes. -/
def update (msg : List Nat) (s : MIDIChannelState) : MIDIChannelState :=
  let b1 := msg.getD 1 0
  let b2 := msg.getD 2 0
  let st := MIDIMessage.status (msg.getD 0 0)
  if st = 0x90 then
    -- NoteOn: push onto the note's outstanding-occurrence queue
    { s with activeNotes := fun n =>
        if n = b1 then s.activeNotes n ++ [msg] else s.activeNotes n }
  else if st = 0x80 then
    -- NoteOff: defer while the hold pedal is down, else pop the oldest
    if s.holdOn then
      { s with heldNotes := s.heldNotes ++ [msg] }
    else
      { s with activeNotes := fun n =>
          if n = b1 then (s.activeNotes n).tail else s.activeNotes n }
  else if st = 0xa0 then
    -- KeyPressure
    { s with keyPressure := fun n => if n = b1 then b2 else s.keyPressure n }
  else if st = 0xb0 then
    -- ControlChange: record the value, then drain the held queue in FIFO
    -- order when controller 64 drops below 64
    let s1 : MIDIChannelState :=
      { s with controller := fun n => if n = b1 then b2 else s.controller n }
    if b1 = 64 ∧ b2 < 64 then
      let s2 := s1.heldNotes.foldl drainOne s1
      { s2 with heldNotes := [] }
    else s1
  else if st = 0xe0 then
    -- PitchBend
    { s with pitchBend := MIDIMessage.pitchBend msg }
  else if st = 0xd0 then
    -- ChannelPressure
    { s with channelPressure := b1 }
  else s

/-- Source `MIDIChannelState.reset()`: back to the constructed values. -/
def reset (_s : MIDIChannelState) : MIDIChannelState := init

/-- States reachable from the freshly constructed channel state by any
sequence of `update` and `reset` operations. -/
inductive Reachable : MIDIChannelState → Prop where
  | init : Reachable init
  | update (msg : List Nat) {s : MIDIChannelState} :
      Reachable s → Reachable (update msg s)
  | reset {s : MIDIChannelState} : Reachable s → Reachable (reset s)

end MIDIChannelState

/-!
## Exchange protocol — `MIDIExchange`

`Uint8Array` frames are `List Nat`; the `Set` of remaining required
responses is a list in insertion order (JS `Set` iterates in insertion
order; `onMidiMessage` consumes the first matching descriptor and breaks).
Timer handles, promise callbacks and the raw transport are outside the
state; what `start` / `startExchangeEvent` / `onMidiMessage` do to the
instance fields is modelled exactly.
-/

/-- Source interface `IRequiredResponse`: optional manufacturer id
(single byte or extended array), optional device id, optional header. -/
structure RequiredResponse where
  id : Option (Nat ⊕ List Nat)
  deviceId : Option Nat
  header : Option (List Nat)
deriving DecidableEq

/-- Source interface `IExchangeEvent`: one request frame plus optional
required-response descriptors (`IRequiredResponse | IRequiredResponse[]`,
already normalised to a list as `startExchangeEvent` does). -/
structure ExchangeEvent where
  request : List Nat
  response : Option (List RequiredResponse)
deriving DecidableEq

/-- The owning `MIDIDevice`'s identifiers, read by `onMidiMessage` when a
descriptor omits (or, through JS falsiness, zeroes) a field. -/
structure MIDIDeviceIds where
  manufacturerId : Nat ⊕ List Nat
  deviceId : Nat

/-- Source `MIDIExchange` instance fields (minus callbacks, timer handle and
timeout value). `_isRunning` and `_isCompleted` are declared and tested in
the source but never assigned anywhere in the repository. -/
structure MIDIExchange where
  isRunning : Bool
  isCompleted : Bool
  exchangeEvents : List ExchangeEvent
  responses : List (List Nat)
  eventIndex : Nat
  requiredResponses : Option (List RequiredResponse)

namespace MIDIExchange

/-- Source constructor: fields at their initialisers, the exchange events
from the constructor argument. -/
def mkExchange (events : List ExchangeEvent) : MIDIExchange :=
  { isRunning := false
    isCompleted := false
    exchangeEvents := events
    responses := []
    eventIndex := 0
    requiredResponses := none }

/-- The errors `start` can throw. -/
inductive StartError where
  | alreadyRunning
  | alreadyCompleted
  | noExchangeEvents
deriving DecidableEq, Repr

/-- Source `startExchangeEvent()`: copy the current event's required
responses (`null` when the event declares none) and send the request (the
sent frame is not part of the instance state). The source would fault on a
missing event; `start` and `onMidiMessage` only call it at a valid index. -/
def startExchangeEvent (ex : MIDIExchange) : MIDIExchange :=
  match ex.exchangeEvents.get? ex.eventIndex with
  | some ev => { ex with requiredResponses := ev.response }
  | none => ex

/-- Source `start()`: throw when `_isRunning` or `_isCompleted` is set,
reset `_eventIndex`, throw when no exchange events are queued, else arm
event 0. -/
def start (ex : MIDIExchange) : Except StartError MIDIExchange :=
  if ex.isRunning then .error .alreadyRunning
  else if ex.isCompleted then .error .alreadyCompleted
  else
    let ex := { ex with eventIndex := 0 }
    if ex.exchangeEvents.length = 0 then .error .noExchangeEvents
    else .ok (startExchangeEvent ex)

/-- The defaulting of a descriptor's manufacturer id in source
`onMidiMessage`: `req.id || this.device.manufacturerId`. JS `||` tests
falsiness, so the number `0` (like an omitted field) selects the device's
id; a non-zero number or any array form is kept. -/
def effectiveId (reqId : Option (Nat ⊕ List Nat)) (device : MIDIDeviceIds) :
    Nat ⊕ List Nat :=
  match reqId with
  | some (.inl n) => if n = 0 then device.manufacturerId else .inl n
  | some (.inr l) => .inr l
  | none => device.manufacturerId

/-- The defaulting of a descriptor's device id in source `onMidiMessage`:
`req.deviceId || this.device.deviceId`; the number `0` is falsy, so it
selects the device's id like an omitted field. -/
def effectiveDeviceId (reqDeviceId : Option Nat) (device : MIDIDeviceIds) : Nat :=
  match reqDeviceId with
  | some d => if d = 0 then device.deviceId else d
  | none => device.deviceId

/-- The per-descriptor test of source `onMidiMessage`:
`MIDIMessage.validateSysEx(data, id, deviceId, req.header)` with the two
defaulted fields. -/
def descriptorMatches (device : MIDIDeviceIds) (data : List Nat)
    (req : RequiredResponse) : Bool :=
  MIDIMessage.validateSysEx data (effectiveId req.id device)
    (some (effectiveDeviceId req.deviceId device)) req.header

/-- The `for (const req of required)` loop of source `onMidiMessage`:
remove the first descriptor the frame matches (`required.delete(req); break`),
`none` when no descriptor matches. -/
def consumeMatch (device : MIDIDeviceIds) (data : List Nat) :
    List RequiredResponse → Option (List RequiredResponse)
  | [] => none
  | req :: rest =>
    if descriptorMatches device data req then some rest
    else (consumeMatch device data rest).map (req :: ·)

/-- Source `onMidiMessage(event)`: match the frame against the remaining
required responses (or capture it unconditionally when the event requires
none), and on event completion advance — re-arming the next event or, when
none remain, resolving (which does not assign `_isCompleted`). -/
def onMidiMessage (device : MIDIDeviceIds) (ex : MIDIExchange)
    (data : List Nat) : MIDIExchange :=
  let step : MIDIExchange × Bool :=
    match ex.requiredResponses with
    | some reqs =>
      match consumeMatch device data reqs with
      | some rest =>
        ({ ex with responses := ex.responses ++ [data],
                   requiredResponses := some rest }, rest.isEmpty)
      | none => (ex, reqs.isEmpty)
    | none => ({ ex with responses := ex.responses ++ [data] }, true)
  let ex1 := step.1
  if step.2 then
    let ex2 := { ex1 with eventIndex := ex1.eventIndex + 1 }
    if ex2.exchangeEvents.length ≤ ex2.eventIndex then ex2
    else startExchangeEvent ex2
  else ex1

end MIDIExchange

/-!
## Concrete inputs used by the claim theorems
-/

/-- An identity-request exchange event with no required response
(spec §8 scenario 6's request frame). -/
def sampleEvent : ExchangeEvent :=
  { request := [0xf0, 0x7e, 0x10, 0x06, 0x01, 0xf7], response := none }

/-- A device with manufacturer id `0x43` and device id `0x10`. -/
def sampleDevice : MIDIDeviceIds :=
  { manufacturerId := .inl 0x43, deviceId := 0x10 }

/-- State after NoteOn(60, vel 100) on the fresh channel state. -/
def holdSeq1 : MIDIChannelState :=
  MIDIChannelState.update (MIDIMessage.noteOn 0 60 100) MIDIChannelState.init

/-- ... then ControlChange(64, 127): hold on. -/
def holdSeq2 : MIDIChannelState :=
  MIDIChannelState.update (MIDIMessage.controlChange 0 64 127) holdSeq1

/-- ... then NoteOff(60): deferred by the hold pedal. -/
def holdSeq3 : MIDIChannelState :=
  MIDIChannelState.update (MIDIMessage.noteOff 0 60 0) holdSeq2

/-- ... then ControlChange(64, 0): hold off, held notes drained. -/
def holdSeq4 : MIDIChannelState :=
  MIDIChannelState.update (MIDIMessage.controlChange 0 64 0) holdSeq3

/-- State after NoteOn(60, vel 100) on the fresh channel state (retrigger
sequence). -/
def retrigSeq1 : MIDIChannelState :=
  MIDIChannelState.update (MIDIMessage.noteOn 0 60 100) MIDIChannelState.init

/-- ... then a second NoteOn(60, vel 90) before any release. -/
def retrigSeq2 : MIDIChannelState :=
  MIDIChannelState.update (MIDIMessage.noteOn 0 60 90) retrigSeq1

/-- ... then NoteOff(60): only the oldest occurrence is released. -/
def retrigSeq3 : MIDIChannelState :=
  MIDIChannelState.update (MIDIMessage.noteOff 0 60 0) retrigSeq2

/-!
## Helper lemmas
-/

theorem chanBits : ∀ ch, ch < 16 →
    (0x90 ||| ch) &&& 0xf0 = 0x90 ∧ (0x90 ||| ch) &&& 0x0f = ch ∧
    (0x80 ||| ch) &&& 0xf0 = 0x80 ∧ (0x80 ||| ch) &&& 0x0f = ch ∧
    (0xb0 ||| ch) &&& 0xf0 = 0xb0 := by
  decide

theorem lowNibbleBits : ∀ x, x < 16 →
    (0x80 ||| x) &&& 0xf0 = 0x80 ∧ (0x80 ||| x) &&& 0x0f = x := by
  decide

theorem type_channel_of_mask {x m : Nat} (h : x &&& 0xf0 = m) (h1 : m ≠ 0xf0) :
    MIDIMessage.type x = .Channel := by
  have hx : x ≠ 0xf0 := by
    intro he
    apply h1
    rw [he] at h
    simpa using h.symm
  unfold MIDIMessage.type
  rw [if_neg hx, if_neg (by rw [h]; exact h1)]

theorem status_of_mask {x m : Nat} (h : x &&& 0xf0 = m) (h1 : m ≠ 0xf0) :
    MIDIMessage.status x = m := by
  unfold MIDIMessage.status
  rw [h, if_neg h1]

theorem mkMessage_false (data : List Nat) :
    MIDIMessage.mkMessage false data = data := by
  unfold MIDIMessage.mkMessage
  rw [if_neg]
  simp

theorem mkMessage_skip {convert : Bool} {data : List Nat}
    (h : ¬(data.length = 3 ∧ data.getD 0 0 &&& 0xf0 = 0x90 ∧ data.getD 2 0 = 0)) :
    MIDIMessage.mkMessage convert data = data := by
  unfold MIDIMessage.mkMessage
  rw [if_neg]
  tauto

theorem mkMessage_rewrite {a b : Nat} (h : a &&& 0xf0 = 0x90) :
    MIDIMessage.mkMessage true [a, b, 0] = [0x80 ||| (a &&& 0x0f), b, 0] := by
  unfold MIDIMessage.mkMessage
  rw [if_pos ⟨rfl, rfl, by simpa using h, rfl⟩]
  rfl

/-!
## Claim theorems — codec
-/

/-- C6: the `pitchBend` accessor computes `byte2 * 128 + byte1 - 8192`; over
7-bit data bytes its value lies in `-8192..8191`; and the frame built from
`byte1 = (v + 8192) % 128`, `byte2 = (v + 8192) / 128` decodes back to `v`
for every `v` in `[-8192, 8191]`. -/
theorem C6_pitchBend_formula_range_roundtrip :
    (∀ s b1 b2 : Nat, ∀ rest : List Nat,
       MIDIMessage.pitchBend (s :: b1 :: b2 :: rest) =
         (b2 : Int) * 128 + (b1 : Int) - 8192) ∧
    (∀ s b1 b2 : Nat, ∀ rest : List Nat, b1 ≤ 127 → b2 ≤ 127 →
       -8192 ≤ MIDIMessage.pitchBend (s :: b1 :: b2 :: rest) ∧
         MIDIMessage.pitchBend (s :: b1 :: b2 :: rest) ≤ 8191) ∧
    (∀ v : Int, -8192 ≤ v → v ≤ 8191 → ∀ s : Nat, ∀ rest : List Nat,
       MIDIMessage.pitchBend
         (s :: (v + 8192).toNat % 128 :: (v + 8192).toNat / 128 :: rest) = v) := by
  refine ⟨fun s b1 b2 rest => ?_, fun s b1 b2 rest h1 h2 => ?_,
    fun v hlo hhi s rest => ?_⟩
  · simp [MIDIMessage.pitchBend]
  · simp only [MIDIMessage.pitchBend, List.getD_cons_succ, List.getD_cons_zero]
    omega
  · simp only [MIDIMessage.pitchBend, List.getD_cons_succ, List.getD_cons_zero]
    omega

/-- C9: the universal non-realtime sysex builder emits
`0xf0, 0x7e, deviceId, sid1[, sid2][, payload]` as claimed, but the
universal realtime builder also emits `0x7e` as its second byte — not the
realtime id `0x7f` the claim states — shown here at the concrete input
`deviceId = 0x10, sid1 = 0x06, sid2 = 0x01`. -/
theorem C9_universal_sysex_builders :
    (∀ deviceId sid1 sid2 : Nat, ∀ data : Option (List Nat),
       MIDIMessage.universalRTSysEx deviceId sid1 sid2 data =
         [0xf0, 0x7e, deviceId, sid1, sid2] ++ data.getD []) ∧
    (MIDIMessage.universalRTSysEx 0x10 0x06 0x01 none).get? 1 = some 0x7e ∧
    (0x7e : Nat) ≠ 0x7f ∧
    (∀ deviceId sid1 : Nat, ∀ data : Option (List Nat),
       MIDIMessage.universalNRTSysEx deviceId sid1 none data =
         [0xf0, 0x7e, deviceId, sid1] ++ data.getD []) ∧
    (∀ deviceId sid1 sid2 : Nat, ∀ data : Option (List Nat),
       MIDIMessage.universalNRTSysEx deviceId sid1 (some sid2) data =
         [0xf0, 0x7e, deviceId, sid1, sid2] ++ data.getD []) := by
  refine ⟨fun _ _ _ _ => rfl, rfl, by decide, fun _ _ _ => rfl, fun _ _ _ _ => ?_⟩
  simp [MIDIMessage.universalNRTSysEx]

/-- C7: for every channel 0-15, note and velocity 0-127, the message built
from the Note-On builder's frame reads back as a channel-voice message with
the same channel, note and velocity — whether or not the zero-velocity
conversion flag is set, including at velocity 0 (where the status byte
changes but category, channel, note and velocity are preserved). -/
theorem C7_noteOn_roundtrip :
    (∀ convert : Bool, ∀ ch n v : Nat, ch < 16 → n ≤ 127 → v ≤ 127 →
       MIDIMessage.type
           ((MIDIMessage.mkMessage convert (MIDIMessage.noteOn ch n v)).getD 0 0) =
         MIDIMessageType.Channel ∧
       MIDIMessage.channel (MIDIMessage.mkMessage convert (MIDIMessage.noteOn ch n v)) = ch ∧
       MIDIMessage.note (MIDIMessage.mkMessage convert (MIDIMessage.noteOn ch n v)) = n ∧
       MIDIMessage.velocity (MIDIMessage.mkMessage convert (MIDIMessage.noteOn ch n v)) = v) ∧
    (MIDIMessage.mkMessage true (MIDIMessage.noteOn 3 60 0) = [0x83, 60, 0] ∧
     MIDIMessage.channel (MIDIMessage.mkMessage true (MIDIMessage.noteOn 3 60 0)) = 3 ∧
     MIDIMessage.note (MIDIMessage.mkMessage true (MIDIMessage.noteOn 3 60 0)) = 60 ∧
     MIDIMessage.velocity (MIDIMessage.mkMessage true (MIDIMessage.noteOn 3 60 0)) = 0) := by
  constructor
  · intro convert ch n v hch _hn _hv
    obtain ⟨h90f0, h900f, h80f0, h800f, _⟩ := chanBits ch hch
    by_cases hcase : convert = true ∧ v = 0
    · obtain ⟨hc, hv0⟩ := hcase
      subst hc hv0
      have hrw : MIDIMessage.mkMessage true (MIDIMessage.noteOn ch n 0) =
          [0x80 ||| ch, n, 0] := by
        unfold MIDIMessage.noteOn
        rw [mkMessage_rewrite h90f0, h900f]
      rw [hrw]
      refine ⟨type_channel_of_mask (m := 0x80) ?_ (by decide), ?_, rfl, rfl⟩
      · simpa using h80f0
      · simpa [MIDIMessage.channel] using h800f
    · have hid : MIDIMessage.mkMessage convert (MIDIMessage.noteOn ch n v) =
          MIDIMessage.noteOn ch n v := by
        rcases Bool.eq_false_or_eq_true convert with hc | hc
        · subst hc
          apply mkMessage_skip
          intro hall
          exact hcase ⟨rfl, by simpa [MIDIMessage.noteOn] using hall.2.2⟩
        · subst hc; exact mkMessage_false _
      rw [hid]
      refine ⟨type_channel_of_mask (m := 0x90) ?_ (by decide), ?_, rfl, rfl⟩
      · simpa [MIDIMessage.noteOn] using h90f0
      · simpa [MIDIMessage.noteOn, MIDIMessage.channel] using h900f
  · refine ⟨by decide, by decide, by decide, by decide⟩

/-- C8: with the zero-velocity conversion flag set, constructing a message
from a 3-byte frame whose status nibble is Note-On and whose velocity is 0
rewrites the first byte to Note-Off on the same channel; any other frame is
stored byte-for-byte unchanged; and the rewrite is idempotent (applied once
at construction, a further application changes nothing). -/
theorem C8_zero_velocity_construction :
    (∀ b0 n : Nat, b0 &&& 0xf0 = 0x90 →
       MIDIMessage.mkMessage true [b0, n, 0] = [0x80 ||| (b0 &&& 0x0f), n, 0]) ∧
    (∀ ch n : Nat, ch < 16 →
       MIDIMessage.status
           ((MIDIMessage.mkMessage true [0x90 ||| ch, n, 0]).getD 0 0) = 0x80 ∧
       MIDIMessage.channel (MIDIMessage.mkMessage true [0x90 ||| ch, n, 0]) = ch) ∧
    (∀ data : List Nat,
       ¬(data.length = 3 ∧ data.getD 0 0 &&& 0xf0 = 0x90 ∧ data.getD 2 0 = 0) →
       MIDIMessage.mkMessage true data = data) ∧
    (∀ data : List Nat,
       MIDIMessage.mkMessage true (MIDIMessage.mkMessage true data) =
         MIDIMessage.mkMessage true data) := by
  refine ⟨fun b0 n h => mkMessage_rewrite h, fun ch n hch => ?_,
    fun data h => mkMessage_skip h, fun data => ?_⟩
  · obtain ⟨h90f0, h900f, h80f0, h800f, _⟩ := chanBits ch hch
    have hrw : MIDIMessage.mkMessage true [0x90 ||| ch, n, 0] =
        [0x80 ||| ch, n, 0] := by
      rw [mkMessage_rewrite h90f0, h900f]
    rw [hrw]
    constructor
    · exact status_of_mask (by simpa using h80f0) (by decide)
    · simpa [MIDIMessage.channel] using h800f
  · by_cases hc : data.length = 3 ∧ data.getD 0 0 &&& 0xf0 = 0x90 ∧ data.getD 2 0 = 0
    · obtain ⟨hlen, hmask, hvel⟩ := hc
      match data, hlen with
      | [a, b, c], _ =>
        have hc0 : c = 0 := by simpa using hvel
        subst hc0
        have ha : a &&& 0xf0 = 0x90 := by simpa using hmask
        rw [mkMessage_rewrite ha]
        apply mkMessage_skip
        rintro ⟨-, habs, -⟩
        have hlt : a &&& 0x0f < 16 := by
          have := Nat.and_le_right (n := a) (m := 0x0f)
          omega
        have h80 : (0x80 ||| (a &&& 0x0f)) &&& 0xf0 = 0x80 :=
          (lowNibbleBits _ hlt).1
        simp only [List.getD_cons_zero] at habs
        rw [h80] at habs
        exact absurd habs (by decide)
    · rw [mkMessage_skip hc, mkMessage_skip hc]

theorem headerMatches_iff (data : List Nat) (i : Nat) :
    ∀ (hs : List Nat) (j : Nat),
      MIDIMessage.headerMatches data i hs j = true ↔
      ∀ k, k < hs.length → hs.getD k 0 ≠ 0xff →
        data.get? (i + j + k + 1) = some (hs.getD k 0) := by
  intro hs
  induction hs with
  | nil =>
    intro j
    simp [MIDIMessage.headerMatches]
  | cons h rest ih =>
    intro j
    simp only [MIDIMessage.headerMatches]
    by_cases hcond : h ≠ 0xff ∧ data.get? (i + j + 1) ≠ some h
    · rw [if_pos hcond]
      simp only [Bool.false_eq_true, false_iff]
      intro hall
      have h0 := hall 0 (by simp) (by simpa using hcond.1)
      exact hcond.2 (by simpa using h0)
    · rw [if_neg hcond, ih (j + 1)]
      constructor
      · intro hall k hk hne
        cases k with
        | zero =>
          simp only [List.getD_cons_zero] at hne ⊢
          rcases not_and_or.mp hcond with hx | hx
          · exact absurd (not_not.mp hx) hne
          · simpa using not_not.mp hx
        | succ k =>
          have hk2 : k < rest.length := by simpa using hk
          have hres := hall k hk2 (by simpa using hne)
          have harith : i + (j + 1) + k + 1 = i + j + (k + 1) + 1 := by omega
          rw [harith] at hres
          simpa using hres
      · intro hall k hk hne
        have hres := hall (k + 1) (by simpa using hk) (by simpa using hne)
        have harith : i + j + (k + 1) + 1 = i + (j + 1) + k + 1 := by omega
        rw [harith] at hres
        simpa using hres

theorem headerPart_iff (data : List Nat) (i : Nat) (header : Option (List Nat)) :
    MIDIMessage.headerPart data i header = true ↔
    ∀ hs, header = some hs → ∀ j, j < hs.length → hs.getD j 0 ≠ 0xff →
      data.get? (i + j + 1) = some (hs.getD j 0) := by
  cases header with
  | none => simp [MIDIMessage.headerPart]
  | some hs =>
    simp only [MIDIMessage.headerPart, Option.some.injEq]
    rw [headerMatches_iff]
    constructor
    · rintro hall hs2 rfl j hj hne
      simpa using hall j hj hne
    · intro hall k hk hne
      simpa using hall hs rfl k hk hne

theorem validate_tail_iff (data : List Nat) (i : Nat) (deviceId : Option Nat)
    (header : Option (List Nat)) :
    (match deviceId with
     | some d =>
       if d ≠ 0x7f ∧ data.get? i ≠ some d then false
       else MIDIMessage.headerPart data i header
     | none => MIDIMessage.headerPart data i header) = true ↔
    ((∀ d, deviceId = some d → d ≠ 0x7f → data.get? i = some d) ∧
     (∀ hs, header = some hs → ∀ j, j < hs.length → hs.getD j 0 ≠ 0xff →
       data.get? (i + j + 1) = some (hs.getD j 0))) := by
  cases deviceId with
  | none =>
    rw [headerPart_iff]
    simp
  | some d =>
    show (if d ≠ 0x7f ∧ data.get? i ≠ some d then false
        else MIDIMessage.headerPart data i header) = true ↔ _
    by_cases hd : d ≠ 0x7f ∧ data.get? i ≠ some d
    · rw [if_pos hd]
      simp only [Bool.false_eq_true, false_iff]
      rintro ⟨hdev, -⟩
      exact hd.2 (hdev d rfl hd.1)
    · rw [if_neg hd, headerPart_iff]
      constructor
      · intro hh
        refine ⟨?_, hh⟩
        intro d2 hd2 hne
        injection hd2 with he
        subst he
        rcases not_and_or.mp hd with hx | hx
        · exact absurd (not_not.mp hx) hne
        · exact not_not.mp hx
      · rintro ⟨-, hh⟩
        exact hh

theorem validateSysEx_iff :
    ∀ (data : List Nat) (id : Nat ⊕ List Nat) (deviceId : Option Nat)
      (header : Option (List Nat)),
      MIDIMessage.validateSysEx data id deviceId header = true ↔
        SysExMatchSpec data id deviceId header := by
  intro data id deviceId header
  unfold MIDIMessage.validateSysEx
  by_cases h0 : data.get? 0 = some 0xf0
  · rw [if_neg (by simpa using h0)]
    rcases id with n | l
    · by_cases h1 : data.get? 1 = some n
      · have hI : MIDIMessage.idIndex data (Sum.inl n) = some 2 := by
          show (if data.get? 1 ≠ some n then none else some 2) = some 2
          rw [if_neg (not_not_intro h1)]
        rw [hI]
        have htail := validate_tail_iff data 2 deviceId header
        refine htail.trans ?_
        unfold SysExMatchSpec idOffset
        constructor
        · rintro ⟨hdev, hhead⟩
          exact ⟨h0, h1, hdev, hhead⟩
        · rintro ⟨-, -, hdev, hhead⟩
          exact ⟨hdev, hhead⟩
      · have hI : MIDIMessage.idIndex data (Sum.inl n) = none := by
          show (if data.get? 1 ≠ some n then none else some 2) = none
          rw [if_pos h1]
        rw [hI]
        simp only [Bool.false_eq_true, false_iff]
        unfold SysExMatchSpec
        rintro ⟨-, hc, -⟩
        exact h1 hc
    · by_cases h1 : data.get? 1 = l.get? 0 ∧ data.get? 2 = l.get? 1 ∧
          data.get? 3 = l.get? 2
      · have hI : MIDIMessage.idIndex data (Sum.inr l) = some 4 := by
          show (if data.get? 1 ≠ l.get? 0 ∨ data.get? 2 ≠ l.get? 1 ∨
              data.get? 3 ≠ l.get? 2 then none else some 4) = some 4
          rw [if_neg (by tauto)]
        rw [hI]
        have htail := validate_tail_iff data 4 deviceId header
        refine htail.trans ?_
        unfold SysExMatchSpec idOffset
        constructor
        · rintro ⟨hdev, hhead⟩
          exact ⟨h0, h1, hdev, hhead⟩
        · rintro ⟨-, -, hdev, hhead⟩
          exact ⟨hdev, hhead⟩
      · have hI : MIDIMessage.idIndex data (Sum.inr l) = none := by
          show (if data.get? 1 ≠ l.get? 0 ∨ data.get? 2 ≠ l.get? 1 ∨
              data.get? 3 ≠ l.get? 2 then none else some 4) = none
          rw [if_pos (by tauto)]
        rw [hI]
        simp only [Bool.false_eq_true, false_iff]
        unfold SysExMatchSpec
        rintro ⟨-, hc, -⟩
        exact h1 hc
  · rw [if_pos (by simpa using h0)]
    simp only [Bool.false_eq_true, false_iff]
    unfold SysExMatchSpec
    rintro ⟨hc, -⟩
    exact h0 hc

/-- C5: `validateSysEx` returns true exactly when the frame starts with the
sysex status, the manufacturer id matches positionally (1-byte or 3-byte
form), a supplied non-wildcard (`0x7f`) device id equals the byte after the
id, and every supplied non-wildcard (`0xff`) header byte equals the
corresponding frame byte; with id `0x43` and the device-id wildcard it
accepts the two sample frames, and with device id `0x10` it rejects the
third. -/
theorem C5_validateSysEx_characterisation :
    (∀ (data : List Nat) (id : Nat ⊕ List Nat) (deviceId : Option Nat)
       (header : Option (List Nat)),
       MIDIMessage.validateSysEx data id deviceId header = true ↔
         SysExMatchSpec data id deviceId header) ∧
    MIDIMessage.validateSysEx [0xf0, 0x43, 0x10, 0x00, 0xf7]
      (.inl 0x43) (some 0x7f) none = true ∧
    MIDIMessage.validateSysEx [0xf0, 0x43, 0x7f, 0x00, 0xf7]
      (.inl 0x43) (some 0x7f) none = true ∧
    MIDIMessage.validateSysEx [0xf0, 0x43, 0x20, 0x00, 0xf7]
      (.inl 0x43) (some 0x10) none = false := by
  exact ⟨validateSysEx_iff, by decide, by decide, by decide⟩

/-!
## Channel-state branch lemmas
-/

theorem update_noteOn (s : MIDIChannelState) {m : List Nat}
    (h : MIDIMessage.status (m.getD 0 0) = 0x90) :
    MIDIChannelState.update m s =
      { s with activeNotes := fun n =>
          if n = m.getD 1 0 then s.activeNotes n ++ [m] else s.activeNotes n } := by
  simp only [MIDIChannelState.update]
  rw [h, if_pos rfl]

theorem update_noteOff_hold (s : MIDIChannelState) {m : List Nat}
    (h : MIDIMessage.status (m.getD 0 0) = 0x80) (hold : s.holdOn) :
    MIDIChannelState.update m s = { s with heldNotes := s.heldNotes ++ [m] } := by
  simp only [MIDIChannelState.update]
  rw [h, if_neg (by decide), if_pos rfl, if_pos hold]

theorem update_noteOff_nohold (s : MIDIChannelState) {m : List Nat}
    (h : MIDIMessage.status (m.getD 0 0) = 0x80) (hold : ¬s.holdOn) :
    MIDIChannelState.update m s =
      { s with activeNotes := fun n =>
          if n = m.getD 1 0 then (s.activeNotes n).tail else s.activeNotes n } := by
  simp only [MIDIChannelState.update]
  rw [h, if_neg (by decide), if_pos rfl, if_neg hold]

theorem update_keyPressure (s : MIDIChannelState) {m : List Nat}
    (h : MIDIMessage.status (m.getD 0 0) = 0xa0) :
    MIDIChannelState.update m s =
      { s with keyPressure := fun n =>
          if n = m.getD 1 0 then m.getD 2 0 else s.keyPressure n } := by
  simp only [MIDIChannelState.update]
  rw [h, if_neg (by decide), if_neg (by decide), if_pos rfl]

theorem update_cc_drain (s : MIDIChannelState) {m : List Nat}
    (h : MIDIMessage.status (m.getD 0 0) = 0xb0)
    (h64 : m.getD 1 0 = 64) (hlt : m.getD 2 0 < 64) :
    MIDIChannelState.update m s =
      { s.heldNotes.foldl MIDIChannelState.drainOne
          { s with controller := fun n =>
              if n = 64 then m.getD 2 0 else s.controller n }
        with heldNotes := [] } := by
  simp only [MIDIChannelState.update]
  rw [h, h64, if_neg (by decide), if_neg (by decide), if_neg (by decide), if_pos rfl,
    if_pos ⟨rfl, hlt⟩]

theorem update_cc_nodrain (s : MIDIChannelState) {m : List Nat}
    (h : MIDIMessage.status (m.getD 0 0) = 0xb0)
    (hno : ¬(m.getD 1 0 = 64 ∧ m.getD 2 0 < 64)) :
    MIDIChannelState.update m s =
      { s with controller := fun n =>
          if n = m.getD 1 0 then m.getD 2 0 else s.controller n } := by
  simp only [MIDIChannelState.update]
  rw [h, if_neg (by decide), if_neg (by decide), if_neg (by decide), if_pos rfl,
    if_neg hno]

theorem update_pitchBend (s : MIDIChannelState) {m : List Nat}
    (h : MIDIMessage.status (m.getD 0 0) = 0xe0) :
    MIDIChannelState.update m s = { s with pitchBend := MIDIMessage.pitchBend m } := by
  simp only [MIDIChannelState.update]
  rw [h, if_neg (by decide), if_neg (by decide), if_neg (by decide), if_neg (by decide),
    if_pos rfl]

theorem update_chanPressure (s : MIDIChannelState) {m : List Nat}
    (h : MIDIMessage.status (m.getD 0 0) = 0xd0) :
    MIDIChannelState.update m s = { s with channelPressure := m.getD 1 0 } := by
  simp only [MIDIChannelState.update]
  rw [h, if_neg (by decide), if_neg (by decide), if_neg (by decide), if_neg (by decide),
    if_neg (by decide), if_pos rfl]

theorem update_noop (s : MIDIChannelState) {m : List Nat}
    (h90 : MIDIMessage.status (m.getD 0 0) ≠ 0x90)
    (h80 : MIDIMessage.status (m.getD 0 0) ≠ 0x80)
    (ha0 : MIDIMessage.status (m.getD 0 0) ≠ 0xa0)
    (hb0 : MIDIMessage.status (m.getD 0 0) ≠ 0xb0)
    (he0 : MIDIMessage.status (m.getD 0 0) ≠ 0xe0)
    (hd0 : MIDIMessage.status (m.getD 0 0) ≠ 0xd0) :
    MIDIChannelState.update m s = s := by
  simp only [MIDIChannelState.update]
  rw [if_neg h90, if_neg h80, if_neg ha0, if_neg hb0, if_neg he0, if_neg hd0]

theorem foldl_drainOne_activeNotes :
    ∀ (l : List (List Nat)) (s : MIDIChannelState) (k : Nat),
      (l.foldl MIDIChannelState.drainOne s).activeNotes k =
        (s.activeNotes k).drop
          ((l.filter fun hm => MIDIMessage.note hm = k).length) := by
  intro l
  induction l with
  | nil =>
    intro s k
    simp
  | cons m rest ih =>
    intro s k
    rw [List.foldl_cons, ih]
    by_cases hk : k = MIDIMessage.note m
    · have hfil : ((m :: rest).filter fun hm => MIDIMessage.note hm = k).length =
          ((rest.filter fun hm => MIDIMessage.note hm = k).length) + 1 := by
        simp [List.filter_cons, hk.symm]
      rw [hfil]
      have hact : (MIDIChannelState.drainOne s m).activeNotes k =
          (s.activeNotes k).tail := by
        simp [MIDIChannelState.drainOne, hk]
      rw [hact, ← List.drop_one, List.drop_drop, Nat.add_comm]
    · have hfil : ((m :: rest).filter fun hm => MIDIMessage.note hm = k).length =
          ((rest.filter fun hm => MIDIMessage.note hm = k).length) := by
        have hne : MIDIMessage.note m ≠ k := fun h => hk h.symm
        simp [List.filter_cons, hne]
      rw [hfil]
      have hact : (MIDIChannelState.drainOne s m).activeNotes k = s.activeNotes k := by
        simp [MIDIChannelState.drainOne, hk]
      rw [hact]

theorem foldl_drainOne_heldNotes :
    ∀ (l : List (List Nat)) (s : MIDIChannelState),
      (l.foldl MIDIChannelState.drainOne s).heldNotes = s.heldNotes := by
  intro l
  induction l with
  | nil => intro s; rfl
  | cons m rest ih => intro s; rw [List.foldl_cons, ih]; rfl

theorem update_preserves_heldInv {s : MIDIChannelState} (msg : List Nat)
    (ih : s.controller 64 < 64 → s.heldNotes = []) :
    (MIDIChannelState.update msg s).controller 64 < 64 →
      (MIDIChannelState.update msg s).heldNotes = [] := by
  by_cases h90 : MIDIMessage.status (msg.getD 0 0) = 0x90
  · rw [update_noteOn s h90]
    exact ih
  · by_cases h80 : MIDIMessage.status (msg.getD 0 0) = 0x80
    · by_cases hold : s.holdOn
      · rw [update_noteOff_hold s h80 hold]
        intro hlt
        have h2 : 64 ≤ s.controller 64 := hold
        have hlt2 : s.controller 64 < 64 := hlt
        exact absurd hlt2 (by omega)
      · rw [update_noteOff_nohold s h80 hold]
        exact ih
    · by_cases ha0 : MIDIMessage.status (msg.getD 0 0) = 0xa0
      · rw [update_keyPressure s ha0]
        exact ih
      · by_cases hb0 : MIDIMessage.status (msg.getD 0 0) = 0xb0
        · by_cases hcc : msg.getD 1 0 = 64 ∧ msg.getD 2 0 < 64
          · rw [update_cc_drain s hb0 hcc.1 hcc.2]
            intro _
            rfl
          · rw [update_cc_nodrain s hb0 hcc]
            intro hlt
            have hlt2 : (if (64 : Nat) = msg.getD 1 0 then msg.getD 2 0
                else s.controller 64) < 64 := hlt
            by_cases hb1 : msg.getD 1 0 = 64
            · have hb2 : ¬ msg.getD 2 0 < 64 := fun hx => hcc ⟨hb1, hx⟩
              rw [hb1, if_pos rfl] at hlt2
              exact absurd hlt2 hb2
            · rw [if_neg (fun hx : (64 : Nat) = msg.getD 1 0 => hb1 hx.symm)] at hlt2
              exact ih hlt2
        · by_cases he0 : MIDIMessage.status (msg.getD 0 0) = 0xe0
          · rw [update_pitchBend s he0]
            exact ih
          · by_cases hd0 : MIDIMessage.status (msg.getD 0 0) = 0xd0
            · rw [update_chanPressure s hd0]
              exact ih
            · rw [update_noop s h90 h80 ha0 hb0 he0 hd0]
              exact ih

theorem heldNotes_reachable_inv :
    ∀ s : MIDIChannelState, MIDIChannelState.Reachable s →
      s.controller 64 < 64 → s.heldNotes = [] := by
  intro s h
  induction h with
  | init => intro _; rfl
  | update msg _ ih => exact update_preserves_heldInv msg ih
  | reset _ => intro _; rfl

theorem builder_status (ch : Nat) (hch : ch < 16) (a b : Nat) :
    MIDIMessage.status ((MIDIMessage.noteOn ch a b).getD 0 0) = 0x90 ∧
    MIDIMessage.status ((MIDIMessage.noteOff ch a b).getD 0 0) = 0x80 ∧
    MIDIMessage.status ((MIDIMessage.controlChange ch a b).getD 0 0) = 0xb0 := by
  obtain ⟨h90, -, h80, -, hb0⟩ := chanBits ch hch
  exact ⟨status_of_mask h90 (by decide), status_of_mask h80 (by decide),
    status_of_mask hb0 (by decide)⟩

/-- C1: while hold is active (controller 64 ≥ 64), a Note-Off is pushed onto
the held-notes queue and pops nothing; the Control-Change that drops
controller 64 below 64 empties the held queue and pops, per note, as many
oldest occurrences as that note has held Note-Offs (FIFO drain); and on the
concrete sequence NoteOn(60), CC(64,127), NoteOff(60), CC(64,0) note 60 is
still outstanding after the third message and gone after the fourth. -/
theorem C1_sustain_hold_deferred_release :
    (∀ (s : MIDIChannelState) (m : List Nat),
       64 ≤ s.controller 64 → MIDIMessage.status (m.getD 0 0) = 0x80 →
       (MIDIChannelState.update m s).heldNotes = s.heldNotes ++ [m] ∧
       ∀ k, (MIDIChannelState.update m s).activeNotes k = s.activeNotes k) ∧
    (∀ (s : MIDIChannelState) (ch v : Nat), ch < 16 → v < 64 →
       (MIDIChannelState.update (MIDIMessage.controlChange ch 64 v) s).heldNotes = [] ∧
       ∀ k, (MIDIChannelState.update (MIDIMessage.controlChange ch 64 v) s).activeNotes k =
         (s.activeNotes k).drop
           ((s.heldNotes.filter fun hm => MIDIMessage.note hm = k).length)) ∧
    ((holdSeq3.activeNotes 60).length = 1 ∧ holdSeq3.heldNotes.length = 1 ∧
     (holdSeq4.activeNotes 60).length = 0 ∧ holdSeq4.heldNotes = []) := by
  refine ⟨fun s m hold hst => ?_, fun s ch v hch hv => ?_, ?_⟩
  · rw [update_noteOff_hold s hst hold]
    exact ⟨rfl, fun k => rfl⟩
  · have hst := (builder_status ch hch 64 v).2.2
    have h64 : (MIDIMessage.controlChange ch 64 v).getD 1 0 = 64 := rfl
    have hv2 : (MIDIMessage.controlChange ch 64 v).getD 2 0 < 64 := hv
    rw [update_cc_drain s hst h64 hv2]
    refine ⟨rfl, fun k => ?_⟩
    exact foldl_drainOne_activeNotes s.heldNotes _ k
  · exact ⟨by decide, by decide, by decide, by decide⟩

/-- C2: with hold inactive, a Note-On appends one occurrence to its note's
queue and a Note-Off removes exactly the oldest one, leaving other notes'
queues untouched; the retrigger sequence NoteOn(60), NoteOn(60), NoteOff(60)
passes through queue lengths 1, 2, 1. -/
theorem C2_occurrence_queue_fifo :
    (∀ (s : MIDIChannelState) (m : List Nat), s.controller 64 < 64 →
       MIDIMessage.status (m.getD 0 0) = 0x90 →
       (MIDIChannelState.update m s).activeNotes (MIDIMessage.note m) =
         s.activeNotes (MIDIMessage.note m) ++ [m] ∧
       ∀ k, k ≠ MIDIMessage.note m →
         (MIDIChannelState.update m s).activeNotes k = s.activeNotes k) ∧
    (∀ (s : MIDIChannelState) (m : List Nat), s.controller 64 < 64 →
       MIDIMessage.status (m.getD 0 0) = 0x80 →
       (MIDIChannelState.update m s).activeNotes (MIDIMessage.note m) =
         (s.activeNotes (MIDIMessage.note m)).tail ∧
       ∀ k, k ≠ MIDIMessage.note m →
         (MIDIChannelState.update m s).activeNotes k = s.activeNotes k) ∧
    ((retrigSeq1.activeNotes 60).length = 1 ∧
     (retrigSeq2.activeNotes 60).length = 2 ∧
     (retrigSeq3.activeNotes 60).length = 1 ∧
     retrigSeq3.activeNotes 60 = [MIDIMessage.noteOn 0 60 90]) := by
  refine ⟨fun s m hctrl hst => ?_, fun s m hctrl hst => ?_, ?_⟩
  · rw [update_noteOn s hst]
    constructor
    · show (if MIDIMessage.note m = m.getD 1 0 then
          s.activeNotes (MIDIMessage.note m) ++ [m]
        else s.activeNotes (MIDIMessage.note m)) =
        s.activeNotes (MIDIMessage.note m) ++ [m]
      rw [if_pos (show MIDIMessage.note m = m.getD 1 0 from rfl)]
    · intro k hk
      show (if k = m.getD 1 0 then s.activeNotes k ++ [m] else s.activeNotes k) =
        s.activeNotes k
      rw [if_neg (show ¬(k = m.getD 1 0) from hk)]
  · have hnh : ¬ s.holdOn := by
      intro hh
      have h2 : 64 ≤ s.controller 64 := hh
      omega
    rw [update_noteOff_nohold s hst hnh]
    constructor
    · show (if MIDIMessage.note m = m.getD 1 0 then
          (s.activeNotes (MIDIMessage.note m)).tail
        else s.activeNotes (MIDIMessage.note m)) =
        (s.activeNotes (MIDIMessage.note m)).tail
      rw [if_pos (show MIDIMessage.note m = m.getD 1 0 from rfl)]
    · intro k hk
      show (if k = m.getD 1 0 then (s.activeNotes k).tail else s.activeNotes k) =
        s.activeNotes k
      rw [if_neg (show ¬(k = m.getD 1 0) from hk)]
  · exact ⟨by decide, by decide, by decide, by decide⟩

/-- C3: in every state reachable from the fresh channel state by `update`
and `reset` operations, the held-notes queue is empty whenever hold is
inactive (controller 64 < 64); moreover the update that deactivates hold
always leaves the held queue empty, and the invariant is non-vacuous (shown
at the reachable state after NoteOn(60)). -/
theorem C3_held_queue_empty_when_hold_off :
    (∀ s : MIDIChannelState, MIDIChannelState.Reachable s →
       s.controller 64 < 64 → s.heldNotes = []) ∧
    (∀ (s : MIDIChannelState) (ch v : Nat), ch < 16 → v < 64 →
       (MIDIChannelState.update (MIDIMessage.controlChange ch 64 v) s).heldNotes = []) ∧
    (MIDIChannelState.Reachable holdSeq1 ∧
     holdSeq1.controller 64 < 64 ∧ holdSeq1.heldNotes = []) := by
  refine ⟨heldNotes_reachable_inv, fun s ch v hch hv => ?_, ?_, by decide, by decide⟩
  · have hst := (builder_status ch hch 64 v).2.2
    have h64 : (MIDIMessage.controlChange ch 64 v).getD 1 0 = 64 := rfl
    have hv2 : (MIDIMessage.controlChange ch 64 v).getD 2 0 < 64 := hv
    rw [update_cc_drain s hst h64 hv2]
  · exact MIDIChannelState.Reachable.update _ MIDIChannelState.Reachable.init

theorem startExchangeEvent_fields (ex : MIDIExchange) :
    (MIDIExchange.startExchangeEvent ex).isRunning = ex.isRunning ∧
    (MIDIExchange.startExchangeEvent ex).isCompleted = ex.isCompleted ∧
    (MIDIExchange.startExchangeEvent ex).exchangeEvents = ex.exchangeEvents ∧
    (MIDIExchange.startExchangeEvent ex).eventIndex = ex.eventIndex ∧
    (MIDIExchange.startExchangeEvent ex).responses = ex.responses := by
  unfold MIDIExchange.startExchangeEvent
  split <;> exact ⟨rfl, rfl, rfl, rfl, rfl⟩

theorem start_not_started {ex : MIDIExchange} (hrun : ex.isRunning = false)
    (hcomp : ex.isCompleted = false) (hne : ex.exchangeEvents.length ≠ 0) :
    MIDIExchange.start ex =
      .ok (MIDIExchange.startExchangeEvent { ex with eventIndex := 0 }) := by
  unfold MIDIExchange.start
  rw [hrun, if_neg Bool.false_ne_true, hcomp, if_neg Bool.false_ne_true,
    if_neg (show ¬(({ ex with eventIndex := 0 } : MIDIExchange).exchangeEvents.length = 0)
      from hne)]

/-- C4: the zero-events guard of `start` does fire, but the double-start
guards never can: the source declares `_isRunning` and `_isCompleted` and
throws on them, yet no code ever sets either flag, so a second `start` —
while the first run is still in flight or even after it has completed —
succeeds again (re-arming event 0) instead of failing with a
protocol-violation error. -/
theorem C4_start_guards_evidence :
    MIDIExchange.start (MIDIExchange.mkExchange []) = .error .noExchangeEvents ∧
    (∀ events : List ExchangeEvent, events ≠ [] →
       ∃ ex1, MIDIExchange.start (MIDIExchange.mkExchange events) = .ok ex1 ∧
         ex1.isRunning = false ∧ ex1.isCompleted = false ∧
         ∃ ex2, MIDIExchange.start ex1 = .ok ex2) ∧
    (∃ ex1, MIDIExchange.start (MIDIExchange.mkExchange [sampleEvent]) = .ok ex1 ∧
       (MIDIExchange.onMidiMessage sampleDevice ex1 [0xf0, 0x43, 0x10, 0xf7]).eventIndex = 1 ∧
       (MIDIExchange.onMidiMessage sampleDevice ex1 [0xf0, 0x43, 0x10, 0xf7]).isCompleted = false ∧
       ∃ ex3, MIDIExchange.start
         (MIDIExchange.onMidiMessage sampleDevice ex1 [0xf0, 0x43, 0x10, 0xf7]) =
           .ok ex3) := by
  refine ⟨rfl, fun events hne => ?_, ⟨_, rfl, rfl, rfl, _, rfl⟩⟩
  have hlen : events.length ≠ 0 := fun h => hne (List.length_eq_zero.mp h)
  refine ⟨_, start_not_started rfl rfl hlen, ?_, ?_, ?_⟩
  · exact (startExchangeEvent_fields _).1
  · exact (startExchangeEvent_fields _).2.1
  · have hf := startExchangeEvent_fields
      ({ MIDIExchange.mkExchange events with eventIndex := 0 } : MIDIExchange)
    have hlen2 : (MIDIExchange.startExchangeEvent
        ({ MIDIExchange.mkExchange events with eventIndex := 0 } :
          MIDIExchange)).exchangeEvents.length ≠ 0 := by
      rw [hf.2.2.1]
      exact hlen
    exact ⟨_, start_not_started hf.1 hf.2.1 hlen2⟩

/-- C10: in the exchange matcher, a descriptor manufacturer-id field of `0`
or a device-id field of `0` is treated exactly like an omitted field — the
owning device's id is substituted, because the source tests JS falsiness
(`req.id || device.manufacturerId`) rather than absence; consequently the
effective single-byte manufacturer id (resp. device id) can only be the
literal `0` when it is the device's own id, never by a descriptor's demand. -/
theorem C10_falsy_descriptor_defaults :
    (∀ device : MIDIDeviceIds,
       MIDIExchange.effectiveId (some (.inl 0)) device =
         MIDIExchange.effectiveId none device ∧
       MIDIExchange.effectiveId none device = device.manufacturerId) ∧
    (∀ device : MIDIDeviceIds,
       MIDIExchange.effectiveDeviceId (some 0) device =
         MIDIExchange.effectiveDeviceId none device ∧
       MIDIExchange.effectiveDeviceId none device = device.deviceId) ∧
    (∀ (device : MIDIDeviceIds) (data : List Nat) (devId : Option Nat)
       (header : Option (List Nat)),
       MIDIExchange.descriptorMatches device data
           { id := some (.inl 0), deviceId := devId, header := header } =
         MIDIExchange.descriptorMatches device data
           { id := none, deviceId := devId, header := header }) ∧
    (∀ (device : MIDIDeviceIds) (data : List Nat)
       (mid : Option (Nat ⊕ List Nat)) (header : Option (List Nat)),
       MIDIExchange.descriptorMatches device data
           { id := mid, deviceId := some 0, header := header } =
         MIDIExchange.descriptorMatches device data
           { id := mid, deviceId := none, header := header }) ∧
    (∀ (req : RequiredResponse) (device : MIDIDeviceIds),
       MIDIExchange.effectiveId req.id device = .inl 0 →
         device.manufacturerId = .inl 0) ∧
    (∀ (req : RequiredResponse) (device : MIDIDeviceIds),
       MIDIExchange.effectiveDeviceId req.deviceId device = 0 →
         device.deviceId = 0) := by
  refine ⟨fun device => ⟨rfl, rfl⟩, fun device => ⟨rfl, rfl⟩,
    fun device data devId header => rfl, fun device data mid header => rfl,
    fun req device h => ?_, fun req device h => ?_⟩
  · rcases hr : req.id with _ | val
    · rw [hr] at h
      exact h
    · rcases val with n | l
      · rw [hr] at h
        by_cases hn : n = 0
        · rw [show MIDIExchange.effectiveId (some (Sum.inl n)) device =
              (if n = 0 then device.manufacturerId else Sum.inl n) from rfl,
            if_pos hn] at h
          exact h
        · rw [show MIDIExchange.effectiveId (some (Sum.inl n)) device =
              (if n = 0 then device.manufacturerId else Sum.inl n) from rfl,
            if_neg hn] at h
          injection h with he
          exact absurd he hn
      · rw [hr] at h
        simp [MIDIExchange.effectiveId] at h
  · rcases hr : req.deviceId with _ | d
    · rw [hr] at h
      exact h
    · rw [hr] at h
      by_cases hd : d = 0
      · rw [show MIDIExchange.effectiveDeviceId (some d) device =
            (if d = 0 then device.deviceId else d) from rfl, if_pos hd] at h
        exact h
      · rw [show MIDIExchange.effectiveDeviceId (some d) device =
            (if d = 0 then device.deviceId else d) from rfl, if_neg hd] at h
        exact absurd h hd
